import Mathlib

/-!
Shallow embedding of the wildlife sighting/harvest logging application
(`models.py`, `forms.py`, `app.py`).

Modelling conventions:
* The persisted store (`wildlife.db`) is a `DB` value: three lists of rows.
* SQLAlchemy `DateTime` values are modelled as integer timestamps
  (`Option Int`; `none` is SQL `NULL`).
* Python `float` columns are modelled as `Option Rat`; the builtin
  `float(str)` parser is an explicit parameter `pyFloat : String → Option Rat`
  (`none` models `ValueError`).
* Form field data (WTForms `.data`) is `Option String` for optional text
  fields (`none` models Python `None`).
* `ORDER BY` is modelled as a stable insertion sort with SQLite's comparison
  semantics: `NULL` compares below every value (so `ASC` puts NULLs first and
  `DESC` puts them last), and text uses binary (code-point) collation.
* Each request handler is a pure function from the store (plus request data)
  to a rendered outcome and the store after commit.
-/

/-- A row of the `animal` table (`models.py`, class `Animal`). -/
structure Animal where
  id : Nat
  name : String
  animal_class : String
deriving DecidableEq

/-- A row of the `sighting` table (`models.py`, class `Sighting`). -/
structure Sighting where
  id : Nat
  animal_id : Nat
  sighting_name : Option String
  date_time : Option Int
  weather : Option String
  wind : Option String
  wind_speed : Option String
  wind_direction : Option String
  humidity : Option String
  temperature : Option String
  location : Option String
  notes : Option String
  marker_color : Option String
  lat : Option Rat
  lng : Option Rat
  photo_filename : Option String
deriving DecidableEq

/-- A row of the `harvest` table (`models.py`, class `Harvest`). -/
structure Harvest where
  id : Nat
  animal_id : Nat
  harvest_name : String
  date_time : Option Int
  weather : Option String
  wind_speed : Option String
  wind_direction : Option String
  humidity : Option String
  weapon_type : Option String
  other_weapon_type : Option String
  caliber : Option String
  other_caliber : Option String
  broadhead : Option String
  other_broadhead : Option String
  location : Option String
  shot_lat : Option Rat
  shot_lng : Option Rat
  recovery_lat : Option Rat
  recovery_lng : Option Rat
  distance_traveled : Option Rat
  notes : Option String
  photo_filename : Option String
  marker_color : Option String
deriving DecidableEq

/-- The persisted store: the three tables of `wildlife.db`. -/
structure DB where
  animals : List Animal
  sightings : List Sighting
  harvests : List Harvest
deriving DecidableEq

/-- Python truthiness of an optional string (`if animal_filter:`,
`if file_field.filename:`): `None` and `""` are falsy. -/
def pyTruthy : Option String → Bool
  | none => false
  | some s => s ≠ ""

/-- `safe_float` (`app.py` lines 67-79): `None` or `""` gives `None`, a value
the `float` builtin rejects gives `None`, otherwise the parsed number.
`pyFloat` is the builtin parser; `pyFloat s = none` models `ValueError`. -/
def safe_float (pyFloat : String → Option Rat) (val : Option String) : Option Rat :=
  match val with
  | none => none
  | some s => if s = "" then none else pyFloat s

/-- SQLite comparison on a nullable timestamp column: `NULL` sorts below
every non-`NULL` value. `dtle a b` means `a` comes no later than `b`. -/
def dtle : Option Int → Option Int → Bool
  | none, _ => true
  | some _, none => false
  | some x, some y => decide (x ≤ y)

/-- SQLite binary (code-point) collation on text, as used by
`ORDER BY animal.name`. -/
def charsLe : List Char → List Char → Bool
  | [], _ => true
  | _ :: _, [] => false
  | a :: as, b :: bs =>
    if a.toNat < b.toNat then true
    else if b.toNat < a.toNat then false
    else charsLe as bs

/-- Binary-collation `≤` on strings. -/
def strLe (a b : String) : Bool := charsLe a.data b.data

/-- Insert `a` into `l` before the first element `b` with `¬ le a b`
(the inner step of a stable insertion sort). -/
def ordInsert (le : α → α → Bool) (a : α) : List α → List α
  | [] => [a]
  | b :: l => if le a b then a :: b :: l else b :: ordInsert le a l

/-- Stable insertion sort; models an SQL `ORDER BY` with comparison `le`. -/
def sortByLe (le : α → α → Bool) : List α → List α
  | [] => []
  | a :: l => ordInsert le a (sortByLe le l)

/-- The `name` of the `Animal` row a sighting's foreign key resolves to
(the join target of `sightings_query.join(Animal)`). -/
def sightingAnimalName (db : DB) (s : Sighting) : Option String :=
  (db.animals.find? (fun a => a.id = s.animal_id)).map (·.name)

/-- The `name` of the `Animal` row a harvest's foreign key resolves to. -/
def harvestAnimalName (db : DB) (h : Harvest) : Option String :=
  (db.animals.find? (fun a => a.id = h.animal_id)).map (·.name)

/-- Ascending `ORDER BY sighting.date_time` comparison. -/
def sightingAsc (s t : Sighting) : Bool := dtle s.date_time t.date_time

/-- Descending `ORDER BY sighting.date_time` comparison. -/
def sightingDesc (s t : Sighting) : Bool := dtle t.date_time s.date_time

/-- `view_sightings` (`app.py` lines 100-147).
`animal_filter` is `request.args.get('animal')` (no default: `none` when the
query parameter is absent) and `sortParam` is `request.args.get('sort')`
(handler default `'desc'` applied below, as in line 104).  Returns the
rendered record sequence and `unique_animals`, which the code computes as
`[a.name for a in Animal.query.order_by(Animal.name).all()]` — every
registry name, sorted, regardless of whether any sighting references it. -/
def view_sightings (db : DB) (animal_filter : Option String) (sortParam : Option String) :
    List Sighting × List String :=
  let sort_order := sortParam.getD "desc"
  let q := db.sightings
  let q := if pyTruthy animal_filter then
      q.filter (fun s => sightingAnimalName db s = some (animal_filter.getD ""))
    else q
  let q := if sort_order = "asc" then sortByLe sightingAsc q else sortByLe sightingDesc q
  (q, sortByLe strLe (db.animals.map (·.name)))

/-- `view_all_harvests` (`app.py` lines 283-310): `Harvest.query.all()` with
no filter, no ordering and no distinct-animal list; the rendered sequence is
the store's harvest table as-is. -/
def view_all_harvests (db : DB) : List Harvest :=
  db.harvests

/-- `ANIMAL_CHOICES` (`forms.py` lines 29-73): the Taxonomy, an ordered
mapping from category to the ordered list of animal names. -/
def ANIMAL_CHOICES : List (String × List String) :=
  [ ("Big Game",
      ["American Bison", "Black Bear", "Brown Bear", "Caribou", "Cougar",
       "Elk", "Moose", "Mule Deer", "Pronghorn", "Whitetail Deer(Buck)",
       "Whitetail Deer(Doe)", "Wild Boar"]),
    ("Small Game",
      ["Beaver", "Cottontail", "Crow", "Groundhog", "Opossum", "Porcupine",
       "Rabbit", "Raccoon", "Squirrel"]),
    ("Upland Birds",
      ["Bobwhite Quail", "Chukar Partridge",
       "Grouse (Ruffed, Sage, Spruce, Sharp-Tailed)", "Hungarian Partridge",
       "Pheasant", "Ptarmigan", "Turkey", "Woodcock"]),
    ("Waterfowl",
      ["Duck", "Mallard", "Teal", "Wood Duck", "Canada Goose", "Goose",
       "Brant", "Mergansers"]),
    ("Predators & Other",
      ["Coyote", "Fox", "Bobcat", "Nutria", "Other"]) ]

/-- All Taxonomy `(name, category)` pairs in seeding order. -/
def taxonomyPairs : List (String × String) :=
  ANIMAL_CHOICES.flatMap (fun p => p.2.map (fun n => (n, p.1)))

/-- All Taxonomy names in seeding order. -/
def taxonomyNames : List String :=
  ANIMAL_CHOICES.flatMap (fun p => p.2)

/-- The largest `id` in use in the animal table (`0` when empty); fresh rows
get consecutive ids above it, modelling SQLite row-id assignment. -/
def maxAnimalId (registry : List Animal) : Nat :=
  (registry.map (·.id)).foldr max 0

/-- The `(name, category)` pairs the seed block's loop collects into
`to_insert`, given the names already present: for every `(category, names)`
of `ANIMAL_CHOICES`, in order, every `name` with `name not in existing`
(`existing` is computed once, before the loop). -/
def seedInserts (existing : List String) : List (String × String) :=
  ANIMAL_CHOICES.flatMap (fun p =>
    (p.2.filter (fun n => ¬ existing.contains n)).map (fun n => (n, p.1)))

/-- The seed block of `app.py` (lines 438-447, run under `__main__`):
`existing` is the set of names already in the `animal` table, computed once;
then for every `(category, names)` of `ANIMAL_CHOICES`, every `name` not in
`existing` is appended to `to_insert`, and `to_insert` is added in one
commit.  Fresh ids are assigned consecutively above the current maximum. -/
def ensure_seeded (registry : List Animal) : List Animal :=
  let to_insert := seedInserts (registry.map (·.name))
  registry ++ to_insert.enum.map
    (fun q => { id := maxAnimalId registry + 1 + q.1, name := q.2.1, animal_class := q.2.2 })

/-- The field data of a validated `SightingForm` submission (`forms.py`
lines 86-139).  Exactly the fields `forms.py` declares: in particular there
is no `sighting_name` field, although `app.py` reads one. -/
structure SightingForm where
  animal_category : String
  animal : String
  date_time : Option Int
  weather : Option String
  wind : Option String
  wind_direction : Option String
  temperature : Option String
  wind_speed : Option String
  humidity : Option String
  location : Option String
  notes : Option String
  marker_color : Option String
  lat : Option String
  lng : Option String
deriving DecidableEq

/-- The field data of a validated `HarvestForm` submission (`forms.py`
lines 147-277). -/
structure HarvestForm where
  harvest_name : String
  animal : String
  date_time : Option Int
  weather : Option String
  wind_speed : Option String
  wind_direction : Option String
  humidity : Option String
  weapon_type : Option String
  other_weapon_type : Option String
  caliber : Option String
  other_caliber : Option String
  broadhead : Option String
  other_broadhead : Option String
  location : Option String
  shot_lat : Option String
  shot_lng : Option String
  recovery_lat : Option String
  recovery_lng : Option String
  distance_traveled : Option String
  notes : Option String
  marker_color : Option String
deriving DecidableEq

/-- `Animal.query.filter_by(name=...).first()`: the first registry row whose
`name` equals the submitted animal name exactly (case-sensitive). -/
def findAnimal (db : DB) (name : String) : Option Animal :=
  db.animals.find? (fun a => a.name = name)

/-- SQLAlchemy applies a column-level Python default when no value was
supplied for the column at INSERT time; a value of `None` is treated as
"no value supplied", so the default fires (`marker_color` has
`default="#3388ff"`, `models.py` line 155). -/
def applyMarkerDefault : Option String → Option String
  | none => some "#3388ff"
  | some c => some c

/-- Outcome of a request handler, as seen by the client. -/
inductive SightingOutcome where
  /-- Redirect to the list view after a successful commit. -/
  | redirect
  /-- Re-render the same form (user input preserved) with a flashed message. -/
  | rerender (form : SightingForm) (msg : String)
  /-- HTTP 404 from `get_or_404`. -/
  | notFound
  /-- Unhandled Python `AttributeError` on the named attribute (HTTP 500). -/
  | attrError (attr : String)
deriving DecidableEq

/-- Outcome of a harvest request handler. -/
inductive HarvestOutcome where
  /-- Redirect after a successful commit. -/
  | redirect
  /-- Re-render the same form (user input preserved) with a flashed message. -/
  | rerender (form : HarvestForm) (msg : String)
  /-- HTTP 404 from `get_or_404`. -/
  | notFound
deriving DecidableEq

/-- The next sighting row id, modelling SQLite id assignment. -/
def nextSightingId (db : DB) : Nat :=
  (db.sightings.map (·.id)).foldr max 0 + 1

/-- The next harvest row id. -/
def nextHarvestId (db : DB) : Nat :=
  (db.harvests.map (·.id)).foldr max 0 + 1

/-- `add_sighting` (`app.py` lines 153-198), on a validated submission.
`upload` is the value `handle_file_upload` returned (`none` for no file or a
failed save).  After the upload and the registry lookup, the handler builds
`Sighting(animal=..., sighting_name=form.sighting_name.data, ...)`
(line 177) — but `SightingForm` (`forms.py`) declares no `sighting_name`
field, so evaluating `form.sighting_name` raises `AttributeError` before any
row is constructed; nothing is added or committed. -/
def add_sighting (pyFloat : String → Option Rat) (db : DB) (form : SightingForm)
    (upload : Option String) : SightingOutcome × DB :=
  match findAnimal db form.animal with
  | none => (.rerender form "Animal not found in database.", db)
  | some _ => (.attrError "sighting_name", db)

/-- `add_harvest` (`app.py` lines 314-355), on a validated submission:
resolve the animal (re-render on failure), otherwise build the row from the
form fields — numeric text through `safe_float`, photo from the upload
result, `marker_color` passed through (the column default fires only when
the form data is `None`) — add it and commit. -/
def add_harvest (pyFloat : String → Option Rat) (db : DB) (form : HarvestForm)
    (upload : Option String) : HarvestOutcome × DB :=
  match findAnimal db form.animal with
  | none => (.rerender form "Animal not found in database.", db)
  | some a =>
    let h : Harvest :=
      { id := nextHarvestId db
        animal_id := a.id
        harvest_name := form.harvest_name
        date_time := form.date_time
        weather := form.weather
        wind_speed := form.wind_speed
        wind_direction := form.wind_direction
        humidity := form.humidity
        weapon_type := form.weapon_type
        other_weapon_type := form.other_weapon_type
        caliber := form.caliber
        other_caliber := form.other_caliber
        broadhead := form.broadhead
        other_broadhead := form.other_broadhead
        location := form.location
        shot_lat := safe_float pyFloat form.shot_lat
        shot_lng := safe_float pyFloat form.shot_lng
        recovery_lat := safe_float pyFloat form.recovery_lat
        recovery_lng := safe_float pyFloat form.recovery_lng
        distance_traveled := safe_float pyFloat form.distance_traveled
        notes := form.notes
        photo_filename := upload
        marker_color := applyMarkerDefault form.marker_color }
    (.redirect, { db with harvests := db.harvests ++ [h] })

/-- `edit_sighting` (`app.py` lines 210-263), on a validated submission:
`get_or_404` (404 when the id does not exist), registry lookup (re-render on
failure), then the field assignments starting at line 239 — line 240
evaluates `form.sighting_name.data`, which raises `AttributeError` because
`SightingForm` declares no such field; `db.session.commit()` is never
reached, so the store is unchanged. -/
def edit_sighting (pyFloat : String → Option Rat) (db : DB) (i : Nat)
    (form : SightingForm) (upload : Option String) : SightingOutcome × DB :=
  match db.sightings.find? (fun s => s.id = i) with
  | none => (.notFound, db)
  | some _ =>
    match findAnimal db form.animal with
    | none => (.rerender form "Animal not found in database.", db)
    | some _ => (.attrError "sighting_name", db)

/-- The harvest row after the field assignments of `edit_harvest`
(`app.py` lines 378-404): every mutable field is replaced by the submitted
value; `photo_filename` is replaced only when `handle_file_upload` returned
a truthy filename (`if filename:` at line 403). -/
def editedHarvest (pyFloat : String → Option Rat) (h : Harvest) (a : Animal)
    (form : HarvestForm) (upload : Option String) : Harvest :=
  { id := h.id
    animal_id := a.id
    harvest_name := form.harvest_name
    date_time := form.date_time
    weather := form.weather
    wind_speed := form.wind_speed
    wind_direction := form.wind_direction
    humidity := form.humidity
    weapon_type := form.weapon_type
    other_weapon_type := form.other_weapon_type
    caliber := form.caliber
    other_caliber := form.other_caliber
    broadhead := form.broadhead
    other_broadhead := form.other_broadhead
    location := form.location
    shot_lat := safe_float pyFloat form.shot_lat
    shot_lng := safe_float pyFloat form.shot_lng
    recovery_lat := safe_float pyFloat form.recovery_lat
    recovery_lng := safe_float pyFloat form.recovery_lng
    distance_traveled := safe_float pyFloat form.distance_traveled
    notes := form.notes
    photo_filename := if pyTruthy upload then upload else h.photo_filename
    marker_color := form.marker_color }

/-- `edit_harvest` (`app.py` lines 368-410), on a validated submission:
`get_or_404`, registry lookup (re-render on failure), replace every mutable
field in place (photo only when a new file was stored) and commit. -/
def edit_harvest (pyFloat : String → Option Rat) (db : DB) (i : Nat)
    (form : HarvestForm) (upload : Option String) : HarvestOutcome × DB :=
  match db.harvests.find? (fun h => h.id = i) with
  | none => (.notFound, db)
  | some h =>
    match findAnimal db form.animal with
    | none => (.rerender form "Animal not found in database.", db)
    | some a =>
      let h' := editedHarvest pyFloat h a form upload
      (.redirect, { db with harvests := db.harvests.map (fun x => if x.id = i then h' else x) })

/-- `delete_sighting` (`app.py` lines 269-275): `get_or_404` then delete and
commit; a nonexistent id yields 404 and no state change. -/
def delete_sighting (db : DB) (i : Nat) : SightingOutcome × DB :=
  match db.sightings.find? (fun s => s.id = i) with
  | none => (.notFound, db)
  | some _ => (.redirect, { db with sightings := db.sightings.filter (fun s => s.id ≠ i) })

/-- `delete_harvest` (`app.py` lines 418-424): `get_or_404` then delete and
commit. -/
def delete_harvest (db : DB) (i : Nat) : HarvestOutcome × DB :=
  match db.harvests.find? (fun h => h.id = i) with
  | none => (.notFound, db)
  | some _ => (.redirect, { db with harvests := db.harvests.filter (fun h => h.id ≠ i) })

/-- Modelled from the spec: the batch-delete operation for Sightings
(`delete_batch(ids)`, spec §4.4) is not among the provided sources — only
the single-delete routes are.  Per the spec it iterates the identifier
list, removes each matching record, commits once at the end, and treats a
nonexistent identifier as a no-op rather than an error. -/
def delete_sightings_batch (db : DB) (ids : List Nat) : DB :=
  { db with sightings := db.sightings.filter (fun s => ¬ ids.contains s.id) }

/-- A concrete instance of the builtin `float` parser for evaluating the
handlers on closed inputs: rejects every string. -/
def pyFloat0 : String → Option Rat := fun _ => none

/-- The empty store. -/
def emptyDB : DB := ⟨[], [], []⟩

/-- A registry row for concrete evaluations. -/
def aElk : Animal := ⟨1, "Elk", "Big Game"⟩

/-- A second registry row for concrete evaluations. -/
def aMoose : Animal := ⟨2, "Moose", "Big Game"⟩

/-- A stored sighting of `aElk` with a photo on file. -/
def sElk : Sighting :=
  { id := 1, animal_id := 1, sighting_name := none, date_time := some 100,
    weather := none, wind := none, wind_speed := none, wind_direction := none,
    humidity := none, temperature := none, location := none, notes := none,
    marker_color := none, lat := none, lng := none, photo_filename := some "old.jpg" }

/-- A store whose registry holds Elk and Moose but whose only record
references Elk. -/
def dbOneElkSighting : DB := ⟨[aElk, aMoose], [sElk], []⟩

/-- A stored harvest of `aElk` with the earlier timestamp. -/
def hEarly : Harvest :=
  { id := 1, animal_id := 1, harvest_name := "first", date_time := some 50,
    weather := none, wind_speed := none, wind_direction := none, humidity := none,
    weapon_type := none, other_weapon_type := none, caliber := none,
    other_caliber := none, broadhead := none, other_broadhead := none,
    location := none, shot_lat := none, shot_lng := none, recovery_lat := none,
    recovery_lng := none, distance_traveled := none, notes := none,
    photo_filename := none, marker_color := none }

/-- A stored harvest of `aMoose` with the later timestamp. -/
def hLate : Harvest :=
  { hEarly with id := 2, animal_id := 2, harvest_name := "second", date_time := some 100 }

/-- A store holding the two harvests in ascending timestamp order. -/
def dbHarvAsc : DB := ⟨[aElk, aMoose], [], [hEarly, hLate]⟩

/-- A validated sighting submission for animal `"Elk"` whose latitude text is
empty and whose longitude text is unparseable. -/
def formS : SightingForm :=
  { animal_category := "Big Game", animal := "Elk", date_time := none,
    weather := none, wind := none, wind_direction := none, temperature := none,
    wind_speed := none, humidity := none, location := none, notes := none,
    marker_color := none, lat := some "", lng := some "not-a-number" }

/-- A validated harvest submission for animal `"Elk"` with no marker color
supplied. -/
def formH : HarvestForm :=
  { harvest_name := "fall bull", animal := "Elk", date_time := none,
    weather := none, wind_speed := none, wind_direction := none, humidity := none,
    weapon_type := none, other_weapon_type := none, caliber := none,
    other_caliber := none, broadhead := none, other_broadhead := none,
    location := none, shot_lat := none, shot_lng := none, recovery_lat := none,
    recovery_lng := none, distance_traveled := none, notes := none,
    marker_color := none }

/-! ### Generic lemmas about the `ORDER BY` model -/

theorem perm_ordInsert (le : α → α → Bool) (a : α) (l : List α) :
    (ordInsert le a l).Perm (a :: l) := by
  induction l with
  | nil => exact .refl _
  | cons b l ih =>
    simp only [ordInsert]
    split
    · exact .refl _
    · exact (ih.cons b).trans (List.Perm.swap a b l)

theorem perm_sortByLe (le : α → α → Bool) (l : List α) :
    (sortByLe le l).Perm l := by
  induction l with
  | nil => exact .refl _
  | cons a l ih => exact (perm_ordInsert le a _).trans (ih.cons a)

theorem mem_ordInsert (le : α → α → Bool) (a c : α) (l : List α) :
    c ∈ ordInsert le a l ↔ c = a ∨ c ∈ l := by
  rw [(perm_ordInsert le a l).mem_iff, List.mem_cons]

theorem pairwise_ordInsert (le : α → α → Bool)
    (htot : ∀ a b, le a b = true ∨ le b a = true)
    (htr : ∀ a b c, le a b = true → le b c = true → le a c = true)
    (a : α) {l : List α} (h : l.Pairwise fun x y => le x y = true) :
    (ordInsert le a l).Pairwise fun x y => le x y = true := by
  induction l with
  | nil => simp [ordInsert]
  | cons b l ih =>
    rw [List.pairwise_cons] at h
    obtain ⟨hb, hl⟩ := h
    simp only [ordInsert]
    split
    case isTrue hab =>
      rw [List.pairwise_cons]
      refine ⟨?_, List.pairwise_cons.mpr ⟨hb, hl⟩⟩
      intro x hx
      rcases List.mem_cons.mp hx with rfl | hx
      · exact hab
      · exact htr a b x hab (hb x hx)
    case isFalse hab =>
      rw [List.pairwise_cons]
      refine ⟨?_, ih hl⟩
      intro x hx
      rcases (mem_ordInsert le a x l).mp hx with hxa | hx
      · cases hxa
        rcases htot a b with h1 | h1
        · exact absurd h1 hab
        · exact h1
      · exact hb x hx

theorem pairwise_sortByLe (le : α → α → Bool)
    (htot : ∀ a b, le a b = true ∨ le b a = true)
    (htr : ∀ a b c, le a b = true → le b c = true → le a c = true)
    (l : List α) :
    (sortByLe le l).Pairwise fun x y => le x y = true := by
  induction l with
  | nil => simp [sortByLe]
  | cons a l ih => exact pairwise_ordInsert le htot htr a ih

theorem dtle_total (a b : Option Int) : dtle a b = true ∨ dtle b a = true := by
  cases a <;> cases b <;> simp [dtle] <;> omega

theorem dtle_trans (a b c : Option Int) (h1 : dtle a b = true) (h2 : dtle b c = true) :
    dtle a c = true := by
  cases a <;> cases b <;> cases c <;> simp_all [dtle] <;> omega

theorem charsLe_total (a b : List Char) : charsLe a b = true ∨ charsLe b a = true := by
  induction a generalizing b with
  | nil => left; rfl
  | cons x xs ih =>
    cases b with
    | nil => right; rfl
    | cons y ys =>
      simp only [charsLe]
      by_cases h1 : x.toNat < y.toNat
      · left; simp [h1]
      · by_cases h2 : y.toNat < x.toNat
        · right; simp [h2]
        · simpa [h1, h2] using ih ys

theorem charsLe_trans (a b c : List Char) (h1 : charsLe a b = true)
    (h2 : charsLe b c = true) : charsLe a c = true := by
  induction a generalizing b c with
  | nil => rfl
  | cons x xs ih =>
    cases b with
    | nil => simp [charsLe] at h1
    | cons y ys =>
      cases c with
      | nil => simp [charsLe] at h2
      | cons z zs =>
        simp only [charsLe] at h1 h2 ⊢
        rcases Nat.lt_trichotomy x.toNat y.toNat with hxy | hxy | hxy
        · rcases Nat.lt_trichotomy y.toNat z.toNat with hyz | hyz | hyz
          · simp [show x.toNat < z.toNat by omega]
          · simp [show x.toNat < z.toNat by omega]
          · rw [if_neg (by omega), if_pos (by omega)] at h2
            simp at h2
        · rw [if_neg (by omega), if_neg (by omega)] at h1
          rcases Nat.lt_trichotomy y.toNat z.toNat with hyz | hyz | hyz
          · simp [show x.toNat < z.toNat by omega]
          · rw [if_neg (by omega), if_neg (by omega)] at h2
            rw [if_neg (by omega), if_neg (by omega)]
            exact ih ys zs h1 h2
          · rw [if_neg (by omega), if_pos (by omega)] at h2
            simp at h2
        · rw [if_neg (by omega), if_pos (by omega)] at h1
          simp at h1

theorem strLe_total (a b : String) : strLe a b = true ∨ strLe b a = true :=
  charsLe_total a.data b.data

theorem strLe_trans (a b c : String) (h1 : strLe a b = true) (h2 : strLe b c = true) :
    strLe a c = true :=
  charsLe_trans a.data b.data c.data h1 h2

theorem sightingAsc_total (s t : Sighting) :
    sightingAsc s t = true ∨ sightingAsc t s = true :=
  dtle_total s.date_time t.date_time

theorem sightingAsc_trans (s t u : Sighting) (h1 : sightingAsc s t = true)
    (h2 : sightingAsc t u = true) : sightingAsc s u = true :=
  dtle_trans s.date_time t.date_time u.date_time h1 h2

theorem sightingDesc_total (s t : Sighting) :
    sightingDesc s t = true ∨ sightingDesc t s = true :=
  dtle_total t.date_time s.date_time

theorem sightingDesc_trans (s t u : Sighting) (h1 : sightingDesc s t = true)
    (h2 : sightingDesc t u = true) : sightingDesc s u = true :=
  dtle_trans u.date_time t.date_time s.date_time h2 h1

/-- The record sequence `view_sightings` renders is a permutation of the
stored sightings, filtered when a truthy animal filter was supplied. -/
theorem view_sightings_fst_perm (db : DB) (af so : Option String) :
    (view_sightings db af so).1.Perm
      (if pyTruthy af then
        db.sightings.filter (fun s => sightingAnimalName db s = some (af.getD ""))
       else db.sightings) := by
  simp only [view_sightings]
  split <;> exact perm_sortByLe _ _

/-! ### Claim theorems: list retrieval (C1, C2, C3, C10) -/

/-- Claim C1, counterexample: in a store whose registry holds Elk and Moose
but whose only sighting references Elk, the animal list `view_sightings`
returns contains "Moose", although no sighting of the store references a
Moose — the code returns every registry name, not the names in actual use.
(The harvest list view returns no animal list at all.) -/
theorem view_sightings_unique_animals_cx :
    "Moose" ∈ (view_sightings dbOneElkSighting none none).2 ∧
      ∀ s ∈ dbOneElkSighting.sightings,
        sightingAnimalName dbOneElkSighting s ≠ some "Moose" := by
  decide

/-- Claim C1, amended: the animal list returned by the sighting list view is
the full Animal registry's names in alphabetical (binary-collation) order,
whether or not a name is referenced by any record; the harvest list view
returns the record sequence only, with no animal list. -/
theorem view_sightings_unique_animals_amended (db : DB) (af so : Option String) :
    (view_sightings db af so).2.Perm (db.animals.map (·.name)) ∧
    (view_sightings db af so).2.Pairwise (fun a b => strLe a b = true) ∧
    view_all_harvests db = db.harvests := by
  refine ⟨?_, ?_, rfl⟩
  · exact perm_sortByLe _ _
  · exact pairwise_sortByLe strLe strLe_total strLe_trans _

/-- Claim C2, counterexample: the harvest list retrieval takes no sort
parameter and returns the store's insertion order; with the two stored
harvests in ascending timestamp order the returned sequence is not in
descending order of `date_time`, contradicting the claim's requirement for
retrieval without `sort_order = "asc"`. -/
theorem view_all_harvests_unsorted_cx :
    view_all_harvests dbHarvAsc = [hEarly, hLate] ∧
      dtle hLate.date_time hEarly.date_time = false := by
  decide

/-- Claim C2, amended: for Sightings the claim holds — `sort_order = "asc"`
yields ascending event-timestamp order and any other value (including an
absent parameter, which defaults to `"desc"`) yields descending order, with
`NULL` timestamps ordered as SQLite orders them (first under `ASC`, last
under `DESC`); the Harvest list retrieval accepts no sort parameter and
returns the records in store order. -/
theorem list_records_sort_amended (db : DB) (af sp : Option String)
    (h : sp.getD "desc" ≠ "asc") :
    ((view_sightings db af (some "asc")).1.Pairwise fun s t => sightingAsc s t = true) ∧
    ((view_sightings db af sp).1.Pairwise fun s t => sightingDesc s t = true) ∧
    view_all_harvests db = db.harvests := by
  refine ⟨?_, ?_, rfl⟩
  · simp only [view_sightings, Option.getD_some, if_pos rfl]
    exact pairwise_sortByLe sightingAsc sightingAsc_total sightingAsc_trans _
  · simp only [view_sightings, if_neg h]
    exact pairwise_sortByLe sightingDesc sightingDesc_total sightingDesc_trans _

/-- Witness for `list_records_sort_amended` at the empty store with the sort
parameter absent. -/
theorem list_records_sort_amended_witness :
    ((none : Option String).getD "desc" ≠ "asc") ∧
      (((view_sightings emptyDB none (some "asc")).1.Pairwise fun s t => sightingAsc s t = true) ∧
       ((view_sightings emptyDB none none).1.Pairwise fun s t => sightingDesc s t = true) ∧
       view_all_harvests emptyDB = emptyDB.harvests) :=
  ⟨by decide, list_records_sort_amended emptyDB none none (by decide)⟩

/-- Claim C3, counterexample: the harvest list retrieval has no animal
filter; the only harvest retrieval returns every stored record, here both
the Elk and the Moose harvest, so filtering harvests by `"Elk"` cannot
return exactly the Elk records. -/
theorem view_all_harvests_unfiltered_cx :
    view_all_harvests dbHarvAsc = [hEarly, hLate] ∧
      harvestAnimalName dbHarvAsc hEarly = some "Elk" ∧
      harvestAnimalName dbHarvAsc hLate = some "Moose" := by
  decide

/-- Claim C3, amended: for Sightings the claim holds — with a non-empty
`animal_filter` the returned sequence contains exactly the records whose
referenced registry entry's name equals the filter value (case-sensitive
exact string equality); the Harvest list retrieval takes no filter and
returns every stored record. -/
theorem list_records_filter_amended (db : DB) (av : String) (so : Option String)
    (h : av ≠ "") (s : Sighting) :
    (s ∈ (view_sightings db (some av) so).1 ↔
      s ∈ db.sightings ∧ sightingAnimalName db s = some av) ∧
    view_all_harvests db = db.harvests := by
  refine ⟨?_, rfl⟩
  have hp := view_sightings_fst_perm db (some av) so
  have ht : pyTruthy (some av) = true := by simp [pyTruthy, h]
  rw [if_pos ht] at hp
  rw [hp.mem_iff, List.mem_filter, decide_eq_true_iff, Option.getD_some]

/-- Witness for `list_records_filter_amended`: filtering the one-Elk store
by `"Elk"` keeps its sighting. -/
theorem list_records_filter_amended_witness :
    ("Elk" ≠ "") ∧
      ((sElk ∈ (view_sightings dbOneElkSighting (some "Elk") none).1 ↔
          sElk ∈ dbOneElkSighting.sightings ∧
            sightingAnimalName dbOneElkSighting sElk = some "Elk") ∧
       view_all_harvests dbOneElkSighting = dbOneElkSighting.harvests) :=
  ⟨by decide, list_records_filter_amended dbOneElkSighting "Elk" none (by decide) sElk⟩

/-- Claim C10: an absent animal query parameter, and equally an empty-string
one, applies no filter — the sighting list retrieval returns every stored
sighting (as a permutation: the records are reordered by the sort, not
dropped). -/
theorem sighting_filter_absent_or_empty (db : DB) (af so : Option String)
    (h : af = none ∨ af = some "") :
    (view_sightings db af so).1.Perm db.sightings := by
  have hp := view_sightings_fst_perm db af so
  have hf : pyTruthy af = false := by rcases h with rfl | rfl <;> simp [pyTruthy]
  rwa [if_neg (by simp [hf])] at hp

/-- Witness for `sighting_filter_absent_or_empty` at the one-Elk store with
the parameter absent. -/
theorem sighting_filter_absent_witness :
    ((none : Option String) = none ∨ (none : Option String) = some "") ∧
      (view_sightings dbOneElkSighting none none).1.Perm dbOneElkSighting.sightings :=
  ⟨Or.inl rfl, sighting_filter_absent_or_empty dbOneElkSighting none none (Or.inl rfl)⟩

/-! ### Lemmas about the seed block -/

theorem filter_flatMap (l : List α) (f : α → List β) (p : β → Bool) :
    (l.flatMap f).filter p = l.flatMap fun a => (f a).filter p := by
  induction l with
  | nil => rfl
  | cons a l ih => simp [List.flatMap_cons, List.filter_append, ih]

theorem taxonomyNames_nodup : taxonomyNames.Nodup := by decide

theorem taxonomyPairs_fst : taxonomyPairs.map Prod.fst = taxonomyNames := by decide

theorem contains_true_iff (ex : List String) (n : String) :
    ex.contains n = true ↔ n ∈ ex := by
  simp [List.contains, List.elem_iff]

/-- The seed loop's `to_insert` is the Taxonomy pair list restricted to
names not already present. -/
theorem seedInserts_eq (ex : List String) :
    seedInserts ex = taxonomyPairs.filter (fun q => ¬ ex.contains q.1) := by
  unfold seedInserts taxonomyPairs
  rw [filter_flatMap]
  congr 1
  funext p
  rw [List.filter_map]
  rfl

/-- The names of the seed loop's `to_insert`. -/
theorem seedInserts_fst (ex : List String) :
    (seedInserts ex).map Prod.fst = taxonomyNames.filter (fun n => ¬ ex.contains n) := by
  rw [seedInserts_eq, ← taxonomyPairs_fst, List.filter_map]
  rfl

/-- Seeding appends exactly the `to_insert` pairs to the registry. -/
theorem ensure_seeded_pairs (r : List Animal) :
    (ensure_seeded r).map (fun a => (a.name, a.animal_class)) =
      r.map (fun a => (a.name, a.animal_class)) ++ seedInserts (r.map (·.name)) := by
  simp only [ensure_seeded]
  rw [List.map_append]
  congr 1
  rw [List.map_map]
  have hcomp : ((fun a : Animal => (a.name, a.animal_class)) ∘
      fun q : Nat × String × String =>
        ({ id := maxAnimalId r + 1 + q.1, name := q.2.1, animal_class := q.2.2 } : Animal)) =
      Prod.snd := by
    funext q; rfl
  rw [hcomp, List.enum_map_snd]

/-- The registry names after seeding. -/
theorem ensure_seeded_names (r : List Animal) :
    (ensure_seeded r).map (·.name) =
      r.map (·.name) ++ (seedInserts (r.map (·.name))).map Prod.fst := by
  simp only [ensure_seeded]
  rw [List.map_append]
  congr 1
  rw [List.map_map]
  have hcomp : ((fun a : Animal => a.name) ∘
      fun q : Nat × String × String =>
        ({ id := maxAnimalId r + 1 + q.1, name := q.2.1, animal_class := q.2.2 } : Animal)) =
      (Prod.fst ∘ Prod.snd) := by
    funext q; rfl
  rw [hcomp, ← List.map_map, List.enum_map_snd]

/-- Every Taxonomy name is in the registry after seeding. -/
theorem mem_ensure_seeded_names (r : List Animal) (n : String) (hn : n ∈ taxonomyNames) :
    n ∈ (ensure_seeded r).map (·.name) := by
  rw [ensure_seeded_names, List.mem_append, seedInserts_fst]
  by_cases hm : n ∈ r.map (·.name)
  · exact Or.inl hm
  · refine Or.inr (List.mem_filter.mpr ⟨hn, ?_⟩)
    simp [contains_true_iff, hm]

/-- When the loop collects nothing, seeding leaves the registry unchanged. -/
theorem ensure_seeded_of_nil (r : List Animal) (h : seedInserts (r.map (·.name)) = []) :
    ensure_seeded r = r := by
  simp only [ensure_seeded, h, List.enum_nil, List.map_nil, List.append_nil]

/-- After one seeding run the loop collects nothing further. -/
theorem seedInserts_of_seeded (r : List Animal) :
    seedInserts ((ensure_seeded r).map (·.name)) = [] := by
  rw [seedInserts_eq, List.filter_eq_nil_iff]
  intro q hq
  have hq1 : q.1 ∈ taxonomyNames := by
    rw [← taxonomyPairs_fst]; exact List.mem_map.mpr ⟨q, hq, rfl⟩
  have hmem := mem_ensure_seeded_names r q.1 hq1
  simp [contains_true_iff, hmem]

/-! ### Claim theorem: seeding (C5) -/

/-- Claim C5: for every registry whose names are distinct (the table's
UNIQUE constraint), seeding inserts exactly the Taxonomy `(name, category)`
pairs whose name is not already present; running it again immediately
afterwards changes nothing; and afterwards the registry names are still
distinct and cover every Taxonomy name — exactly one row per unique name. -/
theorem ensure_seeded_idempotent (registry : List Animal)
    (h : (registry.map (·.name)).Nodup) :
    (ensure_seeded registry).map (fun a => (a.name, a.animal_class)) =
        registry.map (fun a => (a.name, a.animal_class)) ++
          taxonomyPairs.filter (fun q => ¬ (registry.map (·.name)).contains q.1) ∧
      ensure_seeded (ensure_seeded registry) = ensure_seeded registry ∧
      ((ensure_seeded registry).map (·.name)).Nodup ∧
      ∀ n ∈ taxonomyNames, n ∈ (ensure_seeded registry).map (·.name) := by
  refine ⟨?_, ?_, ?_, fun n hn => mem_ensure_seeded_names registry n hn⟩
  · rw [ensure_seeded_pairs, seedInserts_eq]
  · exact ensure_seeded_of_nil _ (seedInserts_of_seeded registry)
  · rw [ensure_seeded_names, seedInserts_fst, List.nodup_append]
    refine ⟨h, List.Nodup.filter _ taxonomyNames_nodup, ?_⟩
    intro a ha hb
    have hc := (List.mem_filter.mp hb).2
    simp [contains_true_iff, ha] at hc

/-- Witness for `ensure_seeded_idempotent` at the empty registry. -/
theorem ensure_seeded_idempotent_witness :
    (([] : List Animal).map (·.name)).Nodup ∧
      ((ensure_seeded []).map (fun a => (a.name, a.animal_class)) =
          ([] : List Animal).map (fun a => (a.name, a.animal_class)) ++
            taxonomyPairs.filter (fun q => ¬ (([] : List Animal).map (·.name)).contains q.1) ∧
        ensure_seeded (ensure_seeded []) = ensure_seeded [] ∧
        ((ensure_seeded []).map (·.name)).Nodup ∧
        ∀ n ∈ taxonomyNames, n ∈ (ensure_seeded []).map (·.name)) :=
  ⟨by decide, ensure_seeded_idempotent [] (by decide)⟩

/-! ### Claim theorems: record mutation (C4, C6, C7, C8, C9) -/

/-- Claim C4, evaluation at the failing input: a valid sighting submission
for the seeded animal `"Elk"` with `lat=""` (and an unparseable `lng`) does
not produce a stored record with `lat = None` — the handler reads
`form.sighting_name.data` (`app.py` line 177) on a form class that declares
no `sighting_name` field, so the request fails with `AttributeError` and the
store is unchanged.  (`safe_float` itself behaves as the claim says; the
create operation does not succeed.) -/
theorem add_sighting_missing_field_error :
    add_sighting pyFloat0 dbOneElkSighting formS none
      = (.attrError "sighting_name", dbOneElkSighting) ∧
    safe_float pyFloat0 formS.lat = none := by
  decide

/-- Claim C6: a create request (Sighting or Harvest) whose submitted animal
name has no exact-name match in the registry adds nothing to the store and
re-renders the same form — the submitted field data preserved — with the
visible message "Animal not found in database.". -/
theorem unknown_animal_rerenders (pf : String → Option Rat) (db : DB)
    (sform : SightingForm) (hform : HarvestForm) (us uh : Option String)
    (hs : findAnimal db sform.animal = none) (hh : findAnimal db hform.animal = none) :
    add_sighting pf db sform us = (.rerender sform "Animal not found in database.", db) ∧
    add_harvest pf db hform uh = (.rerender hform "Animal not found in database.", db) := by
  constructor
  · simp [add_sighting, hs]
  · simp [add_harvest, hh]

/-- Witness for `unknown_animal_rerenders`: against the empty registry,
the `"Elk"` submissions are rejected with the store unchanged. -/
theorem unknown_animal_rerenders_witness :
    findAnimal emptyDB formS.animal = none ∧ findAnimal emptyDB formH.animal = none ∧
      (add_sighting pyFloat0 emptyDB formS none
          = (.rerender formS "Animal not found in database.", emptyDB) ∧
       add_harvest pyFloat0 emptyDB formH none
          = (.rerender formH "Animal not found in database.", emptyDB)) :=
  ⟨by decide, by decide,
    unknown_animal_rerenders pyFloat0 emptyDB formS formH none none (by decide) (by decide)⟩

/-- Claim C7, evaluation at the failing input: updating the stored sighting
(photo on file, no new photo supplied) never reaches the photo logic or the
commit — the handler reads `form.sighting_name.data` (`app.py` line 240) on
a form class with no such field, so the request fails with `AttributeError`;
the stored record keeps its photo but the other fields are NOT replaced,
contradicting the claim for the Sighting kind.  (The Harvest update behaves
as claimed; see `edit_harvest` and `editedHarvest`.) -/
theorem edit_sighting_missing_field_error :
    edit_sighting pyFloat0 dbOneElkSighting 1 formS none
      = (.attrError "sighting_name", dbOneElkSighting) := by
  decide

/-- Claim C8: for an identifier matching no stored record, single delete
(Sighting and Harvest) responds not-found and changes nothing, while the
batch delete treats the identifier as a no-op: deleting `[id]` changes
nothing, and adding `id` to any identifier list does not change the batch's
effect. -/
theorem delete_nonexistent (db : DB) (i : Nat) (ids : List Nat)
    (hs : ∀ s ∈ db.sightings, s.id ≠ i) (hh : ∀ x ∈ db.harvests, x.id ≠ i) :
    delete_sighting db i = (.notFound, db) ∧
      delete_harvest db i = (.notFound, db) ∧
      delete_sightings_batch db [i] = db ∧
      delete_sightings_batch db (i :: ids) = delete_sightings_batch db ids := by
  have hfs : db.sightings.find? (fun s => s.id = i) = none :=
    List.find?_eq_none.mpr (fun s hsm => by simpa using hs s hsm)
  have hfh : db.harvests.find? (fun x => x.id = i) = none :=
    List.find?_eq_none.mpr (fun x hxm => by simpa using hh x hxm)
  refine ⟨?_, ?_, ?_, ?_⟩
  · simp [delete_sighting, hfs]
  · simp [delete_harvest, hfh]
  · have heq : db.sightings.filter (fun s => ¬ ([i].contains s.id)) = db.sightings :=
      List.filter_eq_self.mpr (fun s hsm => by
        simp [List.contains_cons, List.contains_nil, beq_iff_eq, hs s hsm])
    simp only [delete_sightings_batch]
    rw [heq]
  · have heq : db.sightings.filter (fun s => ¬ ((i :: ids).contains s.id)) =
        db.sightings.filter (fun s => ¬ (ids.contains s.id)) :=
      List.filter_congr (fun s hsm => by
        simp [List.contains_cons, beq_iff_eq, hs s hsm])
    simp only [delete_sightings_batch]
    rw [heq]

/-- Witness for `delete_nonexistent`: id 99 matches nothing in the one-Elk
store. -/
theorem delete_nonexistent_witness :
    (∀ s ∈ dbOneElkSighting.sightings, s.id ≠ 99) ∧
      (∀ x ∈ dbOneElkSighting.harvests, x.id ≠ 99) ∧
      (delete_sighting dbOneElkSighting 99 = (.notFound, dbOneElkSighting) ∧
       delete_harvest dbOneElkSighting 99 = (.notFound, dbOneElkSighting) ∧
       delete_sightings_batch dbOneElkSighting [99] = dbOneElkSighting ∧
       delete_sightings_batch dbOneElkSighting (99 :: [1]) =
         delete_sightings_batch dbOneElkSighting [1]) :=
  ⟨by decide, by decide, delete_nonexistent dbOneElkSighting 99 [1] (by decide) (by decide)⟩

/-- Claim C9: a Harvest created with no marker color supplied (the form
field `None`) is stored with the column default `'#3388ff'`. -/
theorem harvest_marker_color_default (pf : String → Option Rat) (db : DB)
    (form : HarvestForm) (upload : Option String) (a : Animal)
    (hfind : findAnimal db form.animal = some a) (hmc : form.marker_color = none) :
    (add_harvest pf db form upload).1 = .redirect ∧
      ∃ h, (add_harvest pf db form upload).2.harvests = db.harvests ++ [h] ∧
        h.marker_color = some "#3388ff" := by
  refine ⟨by simp [add_harvest, hfind], ?_⟩
  simp only [add_harvest, hfind]
  exact ⟨_, rfl, by simp [applyMarkerDefault, hmc]⟩

/-- Witness for `harvest_marker_color_default`: the `"Elk"` harvest
submission with no marker color, against the seeded store. -/
theorem harvest_marker_color_default_witness :
    findAnimal dbOneElkSighting formH.animal = some aElk ∧ formH.marker_color = none ∧
      ((add_harvest pyFloat0 dbOneElkSighting formH none).1 = .redirect ∧
       ∃ h, (add_harvest pyFloat0 dbOneElkSighting formH none).2.harvests =
            dbOneElkSighting.harvests ++ [h] ∧
          h.marker_color = some "#3388ff") :=
  ⟨by decide, rfl,
    harvest_marker_color_default pyFloat0 dbOneElkSighting formH none aElk (by decide) rfl⟩
